import Mathlib

attribute [local semireducible] Rat.add Rat.sub Rat.mul Rat.inv

/-!
Shallow embedding of `src/api/generate-report.js` (the second, current version of
the file: the Vercel handler together with its data-formatting helpers).

JavaScript values that can occur in the JSON request body are modelled by
`JSVal` (finite numbers as rationals, strings); an absent field is `Option.none`.
JS `NaN` is modelled by `Option.none` at the points where it can arise
(`parseFloat`, `parseInt`, `ToNumber`), since JSON itself cannot carry `NaN`.
Machine floating point is modelled by `ℚ`: every numeric literal a JSON body can
carry is a decimal rational, and all arithmetic the code performs on them
(sums, one division, comparisons, rounding) is exact in this range.
-/

/-- A JSON-representable JavaScript value: a finite number or a string. -/
inductive JSVal where
  | num (q : ℚ)
  | str (s : String)
deriving DecidableEq

/-- A property record: the flat key/value mapping sent as `propertyData`. -/
def PropertyData := List (String × JSVal)

instance : DecidableEq PropertyData := by
  unfold PropertyData
  infer_instance

/-- `data[key]` / `data.key`: first binding wins, absent key gives `none`. -/
def getField (d : PropertyData) (k : String) : Option JSVal :=
  (d.find? (fun p => p.1 == k)).map Prod.snd

/-- JS truthiness of a possibly-absent value: `undefined`, `0` and `""` are
falsy, everything else `JSVal` can hold is truthy. -/
def truthy : Option JSVal → Bool
  | none => false
  | some (.num q) => decide (q ≠ 0)
  | some (.str s) => decide (s ≠ "")

/-- The decimal digit character for `n % 10`. -/
def digitChar (n : ℕ) : Char :=
  match n % 10 with
  | 0 => '0' | 1 => '1' | 2 => '2' | 3 => '3' | 4 => '4'
  | 5 => '5' | 6 => '6' | 7 => '7' | 8 => '8' | _ => '9'

/-- Decimal digits of `n`, most significant first; `fuel` bounds recursion and
any `fuel > 0` with `fuel ≥ number of digits` renders `n` fully. -/
def natDigitsAux : ℕ → ℕ → List Char
  | 0, _ => []
  | fuel + 1, n => if n < 10 then [digitChar n] else natDigitsAux fuel (n / 10) ++ [digitChar n]

/-- Decimal rendering of a natural number. -/
def natRepr (n : ℕ) : String := ⟨natDigitsAux (n + 1) n⟩

/-- Decimal rendering of an integer (JS has no negative zero in this model). -/
def intRepr (i : ℤ) : String :=
  if i < 0 then "-" ++ natRepr i.natAbs else natRepr i.natAbs

/-- Digits of the fractional expansion of `r / d`, up to `fuel` digits;
terminates early when the remainder hits zero, so a terminating decimal is
rendered exactly (JSON numbers always terminate). -/
def fracDigits : ℕ → ℕ → ℕ → List Char
  | 0, _, _ => []
  | fuel + 1, r, d =>
      if r = 0 then []
      else digitChar ((r * 10) / d) :: fracDigits fuel ((r * 10) % d) d

/-- JS `Number.prototype.toString()` on this model's rationals: sign, integer
part, and the (terminating) fractional expansion when there is one. -/
def numToString (q : ℚ) : String :=
  let sign := if q < 0 then "-" else ""
  let n := q.num.natAbs
  let d := q.den
  let ip := n / d
  let r := n % d
  sign ++ natRepr ip ++ (if r = 0 then "" else "." ++ ⟨fracDigits 64 r d⟩)

/-- String conversion of a `JSVal`, as JS template interpolation performs. -/
def jsValToString : JSVal → String
  | .num q => numToString q
  | .str s => s

/-- Template interpolation of a possibly-absent value: an absent field prints
as the literal text `undefined`, exactly as in JS. -/
def jsToString : Option JSVal → String
  | none => "undefined"
  | some v => jsValToString v

/-- Numeric value of a digit run (`['4','2'] ↦ 42`). -/
def digitsVal (l : List Char) : ℕ :=
  l.foldl (fun a c => a * 10 + (c.toNat - 48)) 0

/-- Split a leading digit run from the rest. -/
def spanDigits (l : List Char) : List Char × List Char :=
  (l.takeWhile Char.isDigit, l.dropWhile Char.isDigit)

/-- Consume one optional sign; `true` means negative. -/
def parseSign : List Char → Bool × List Char
  | '-' :: r => (true, r)
  | '+' :: r => (false, r)
  | l => (false, l)

/-- Read an optional exponent marker `e`/`E` with signed digits; an invalid or
absent exponent contributes `0`, matching `parseFloat`'s longest-valid-prefix
rule (`"1e"` parses as `1`). -/
def parseExpPart : List Char → ℤ
  | 'e' :: r => parseExpDigits r
  | 'E' :: r => parseExpDigits r
  | _ => 0
where
  parseExpDigits (r : List Char) : ℤ :=
    let (neg, r2) := parseSign r
    let (ds, _) := spanDigits r2
    if ds = [] then 0 else if neg then -(digitsVal ds : ℤ) else (digitsVal ds : ℤ)

/-- Scale `q` by `10 ^ e` without integer powers of negative exponent. -/
def scalePow10 (q : ℚ) (e : ℤ) : ℚ :=
  if 0 ≤ e then q * (10 : ℚ) ^ e.toNat else q / (10 : ℚ) ^ (-e).toNat

/-- The longest numeric literal at the front of the character list, as JS
`parseFloat` reads it: optional sign, digits, optional point and digits,
optional exponent.  `none` when no digit is found (JS `NaN`). -/
def parseNumLead (l : List Char) : Option ℚ :=
  let (neg, r0) := parseSign l
  let (ipart, r1) := spanDigits r0
  let (fpart, r2) :=
    match r1 with
    | '.' :: r => spanDigits r
    | _ => ([], r1)
  if ipart = [] ∧ fpart = [] then none
  else
    let mag : ℚ := (digitsVal ipart : ℚ) + (digitsVal fpart : ℚ) / (10 : ℚ) ^ fpart.length
    let v := scalePow10 mag (parseExpPart r2)
    some (if neg then -v else v)

/-- JS `parseFloat` on a string: skip leading whitespace, then read the
longest numeric prefix; `none` models `NaN`. -/
def parseFloatString (s : String) : Option ℚ :=
  parseNumLead (s.data.dropWhile Char.isWhitespace)

/-- JS `parseFloat` applied to a field value: numbers round-trip through
`toString` unchanged, strings are parsed, an absent value is `NaN`. -/
def jsParseFloat : Option JSVal → Option ℚ
  | none => none
  | some (.num q) => some q
  | some (.str s) => parseFloatString s

/-- Floor of a rational, computed by flooring integer division so that the
kernel can evaluate it. -/
def ratFloor (q : ℚ) : ℤ := Int.fdiv q.num q.den

/-- Truncation toward zero, as JS `parseInt` applied to a number performs. -/
def ratTrunc (q : ℚ) : ℤ := if 0 ≤ q then ratFloor q else -(ratFloor (-q))

/-- JS `parseInt` (radix 10) on a string: optional sign then a digit run. -/
def parseIntString (s : String) : Option ℤ :=
  let (neg, r) := parseSign (s.data.dropWhile Char.isWhitespace)
  let (ds, _) := spanDigits r
  if ds = [] then none else some (if neg then -(digitsVal ds : ℤ) else (digitsVal ds : ℤ))

/-- JS `parseInt` applied to a field value; `none` models `NaN`. -/
def jsParseInt : Option JSVal → Option ℤ
  | none => none
  | some (.num q) => some (ratTrunc q)
  | some (.str s) => parseIntString s

/-- JS `ToNumber` on a string (used by arithmetic operators, not `parseFloat`):
whitespace-only strings are `0`, otherwise the whole trimmed string must be a
numeric literal. -/
def toNumberString (s : String) : Option ℚ :=
  let t := ((s.data.dropWhile Char.isWhitespace).reverse.dropWhile Char.isWhitespace).reverse
  if t = [] then some 0 else toNumberFull t
where
  toNumberFull (t : List Char) : Option ℚ :=
    let (neg, r0) := parseSign t
    let (ipart, r1) := spanDigits r0
    let (fpart, r2) :=
      match r1 with
      | '.' :: r => spanDigits r
      | _ => ([], r1)
    let (e, r3) :=
      match r2 with
      | 'e' :: r => toNumberExp r
      | 'E' :: r => toNumberExp r
      | _ => (some (0 : ℤ), r2)
    if ipart = [] ∧ fpart = [] then none
    else match e with
      | none => none
      | some ex =>
        if r3 = [] then
          let mag : ℚ := (digitsVal ipart : ℚ) + (digitsVal fpart : ℚ) / (10 : ℚ) ^ fpart.length
          some (if neg then -(scalePow10 mag ex) else scalePow10 mag ex)
        else none
  toNumberExp (r : List Char) : Option ℤ × List Char :=
    let (neg, r2) := parseSign r
    let (ds, rest) := spanDigits r2
    if ds = [] then (none, rest)
    else (some (if neg then -(digitsVal ds : ℤ) else (digitsVal ds : ℤ)), rest)

/-- JS `ToNumber` of a field value; `none` models `NaN` (`undefined` coerces
to `NaN`). -/
def jsToNumber : Option JSVal → Option ℚ
  | none => none
  | some (.num q) => some q
  | some (.str s) => toNumberString s

/-- JS `Math.round`: floor of `q + 1/2` (half rounds toward `+∞`). -/
def jsRound (q : ℚ) : ℤ := ratFloor (q + 1 / 2)

/-- Zero-padded `f`-digit rendering of `r < 10 ^ f`. -/
def padZeros (f : ℕ) (r : ℕ) : String :=
  ⟨List.replicate (f - (natDigitsAux (r + 1) r).length) '0' ++ natDigitsAux (r + 1) r⟩

/-- JS `Number.prototype.toFixed(f)`: the sign is taken first, then the
magnitude is rounded to the integer `n` nearest to `|q| * 10 ^ f`, ties toward
the larger `n`, and rendered with `f` fractional digits. -/
def jsToFixed (f : ℕ) (q : ℚ) : String :=
  let x := if q < 0 then -q else q
  let m := (ratFloor (x * (10 : ℚ) ^ f + 1 / 2)).toNat
  (if q < 0 then "-" else "") ++
    (if f = 0 then natRepr m else natRepr (m / 10 ^ f) ++ "." ++ padZeros f (m % 10 ^ f))

/-- JS `\w` character class: ASCII letters, digits and underscore. -/
def isWordChar (c : Char) : Bool := c.isAlphanum || c = '_'

/-- Length of the digit run at the front of the list. -/
def digitRunLen : List Char → ℕ
  | [] => 0
  | c :: cs => if c.isDigit then digitRunLen cs + 1 else 0

/-- The effect of `replace(/\B(?=(\d{3})+(?!\d))/g, ",")`: a comma goes before
position `i` exactly when the previous character is a word character (so the
position is a non-boundary; the lookahead itself starts with a digit) and the
maximal digit run starting at `i` has positive length divisible by three. -/
def insertCommas : List Char → List Char
  | [] => []
  | c :: cs =>
      let rest := insertCommas cs
      if isWordChar c && decide (digitRunLen cs ≠ 0) && decide (digitRunLen cs % 3 = 0)
      then c :: ',' :: rest
      else c :: rest

/-- `numberWithCommas(x)` (source lines 467-470): `'N/A'` on any falsy input,
otherwise the comma-inserting replacement applied to `x.toString()`. -/
def numberWithCommas (x : Option JSVal) : String :=
  if truthy x = false then "N/A" else ⟨insertCommas (jsToString x).data⟩

/-- `formatNumber(num, decimals)` (source lines 456-460): `parseFloat`, then
`'N/A'` for `NaN`, otherwise `toFixed(decimals)`. -/
def formatNumber (num : Option JSVal) (decimals : ℕ) : String :=
  match jsParseFloat num with
  | none => "N/A"
  | some q => jsToFixed decimals q

/-- `formatPercentile(value)` (source lines 438-448): falsy values short-circuit
to `'N/A'`; otherwise strip every character that is not a digit or a point,
`parseFloat` the remainder, and round to an integer string. -/
def formatPercentile (value : Option JSVal) : String :=
  if truthy value = false then "N/A"
  else
    let cleanedValue : String := ⟨(jsToString value).data.filter (fun c => c.isDigit || c = '.')⟩
    match parseFloatString cleanedValue with
    | none => "N/A"
    | some numValue => jsToFixed 0 numValue

/-- Modelled from the claim's words for C5 (a refinement reference, not from
the source): strip non-numeric characters, parse the remainder as a float, and
round to an integer string, with `'N/A'` exactly when the remainder is
unparseable.  It differs from `formatPercentile` only in lacking the falsy-value
short-circuit. -/
def formatPercentileClaimed (value : Option JSVal) : String :=
  let cleanedValue : String := ⟨(jsToString value).data.filter (fun c => c.isDigit || c = '.')⟩
  match parseFloatString cleanedValue with
  | none => "N/A"
  | some numValue => jsToFixed 0 numValue

/-- `calculatePercentage(numerator, denominator)` (source lines 422-431). -/
def calculatePercentage (numerator denominator : Option JSVal) : String :=
  match jsParseFloat numerator, jsParseFloat denominator with
  | some num, some den => if den = 0 then "N/A" else formatNumber (some (.num (num / den * 100))) 1
  | none, _ => "N/A"
  | _, none => "N/A"

/-- A rational extended with `Infinity`, for the income-bracket bounds
(`bracket.max || Infinity` and the `max` argument of
`calculateIncomeBracket`). -/
inductive XQ where
  | fin (q : ℚ)
  | inf
deriving DecidableEq

/-- `≤` with `Infinity` on either side, as JS compares. -/
def XQ.leB : XQ → XQ → Bool
  | .fin a, .fin b => decide (a ≤ b)
  | .fin _, .inf => true
  | .inf, .fin _ => false
  | .inf, .inf => true

/-- `<` with `Infinity` on the right, as JS compares. -/
def XQ.ltB : XQ → XQ → Bool
  | .fin a, .fin b => decide (a < b)
  | .fin _, .inf => true
  | .inf, _ => false

/-- The fixed income bins for one radius (source lines 372-383), already
carrying `bracket.min || 0` and `bracket.max || Infinity`. -/
def bracketList (radius : String) : List (String × ℚ × XQ) :=
  [("HHInc0_" ++ radius, 0, .fin 10),
   ("HHInc10_" ++ radius, 10, .fin 15),
   ("HHInc15_" ++ radius, 15, .fin 25),
   ("HHInc25_" ++ radius, 25, .fin 35),
   ("HHInc35_" ++ radius, 35, .fin 50),
   ("HHInc50_" ++ radius, 50, .fin 75),
   ("HHInc75_" ++ radius, 75, .fin 100),
   ("HHInc100_" ++ radius, 100, .fin 150),
   ("HHInc150_" ++ radius, 150, .fin 200),
   ("HHInc200_" ++ radius, 200, .inf)]

/-- `parseInt(data[key]) || 0`. -/
def bracketCount (data : PropertyData) (key : String) : ℤ :=
  (jsParseInt (getField data key)).getD 0

/-- One bracket's contribution to `inBracket` (the body of the `forEach` at
source lines 386-405).  `none` models the `NaN` that JS produces in the
lower-overlap branch when `bracketMax` is `Infinity` (`Infinity / Infinity`);
in the upper-overlap branch an infinite `bracketMax` divides a finite quantity,
which JS evaluates to `0`.  In both overlap branches the guards force
`bmin < b`, so the finite divisor `b - bmin` is nonzero. -/
def bracketContrib (lo : ℚ) (hi : XQ) (bmin : ℚ) (bmax : XQ) (v : ℤ) : Option ℚ :=
  if (decide (bmin ≥ lo) || decide (bmin = 0)) && XQ.leB bmax hi then
    some (v : ℚ)
  else if decide (bmin < lo) && XQ.ltB (.fin lo) bmax then
    match bmax with
    | .inf => none
    | .fin b => some ((v : ℚ) * ((b - lo) / (b - bmin)))
  else if XQ.ltB (.fin bmin) hi && XQ.ltB hi bmax then
    match hi, bmax with
    | .fin m, .fin b => some ((v : ℚ) * ((m - bmin) / (b - bmin)))
    | .fin _, .inf => some 0
    | .inf, _ => some 0
  else some 0

/-- One `forEach` step: accumulate a contribution, `NaN` absorbing. -/
def bracketStep (data : PropertyData) (lo : ℚ) (hi : XQ)
    (acc : Option ℚ) (b : String × ℚ × XQ) : Option ℚ :=
  match acc, bracketContrib lo hi b.2.1 b.2.2 (bracketCount data b.1) with
  | some s, some c => some (s + c)
  | _, _ => none

/-- The accumulated `inBracket` over all ten bins. -/
def inBracketSum (data : PropertyData) (radius : String) (lo : ℚ) (hi : XQ) : Option ℚ :=
  (bracketList radius).foldl (bracketStep data lo hi) (some 0)

/-- `calculateIncomeBracket(data, radius, min, max)` (source lines 360-414).
The surrounding `try`/`catch` wraps straight-line arithmetic that cannot
throw, so it is not modelled; the `NaN` outcome surfaces as `'N/A'` through
`formatNumber`. -/
def calculateIncomeBracket (data : PropertyData) (radius : String) (lo : ℚ) (hi : XQ) : String :=
  let total := bracketCount data ("TotHHs_" ++ radius)
  if total = 0 then "N/A"
  else
    match inBracketSum data radius lo hi with
    | none => "N/A"
    | some inBracket => formatNumber (some (.num (inBracket / (total : ℚ) * 100))) 1

/-- The word the trend classifier picks (source lines 244-245 / 255-256). -/
def trendWord (current future : ℚ) : String :=
  if future > current then "increasing"
  else if future < current then "decreasing" else "stable"

/-- One population-growth-trend block (source lines 239-248 and 250-259 are two
copies of this shape, differing only in the keys and the radius label):
returns the pair (`popGrowthTrend…`, `popGrowthTrendMessage…`), with `none`
when the assignments are skipped. -/
def popGrowthTrendPair (data : PropertyData) (curKey futKey label : String) :
    Option String × Option String :=
  if truthy (getField data curKey) && truthy (getField data futKey) then
    match jsParseFloat (getField data curKey), jsParseFloat (getField data futKey) with
    | some current, some future =>
        let t := trendWord current future
        (some t,
         some ("Population growth within " ++ label ++ " is " ++ t ++ " (" ++
               jsToFixed 2 current ++ "% to " ++ jsToFixed 2 future ++ "%)"))
    | _, _ => (none, none)
  else (none, none)

/-- `formatted.pricePerAcre` (source lines 206-211).  The arithmetic branch
spells out the JS special values explicitly: a zero divisor gives
`Infinity`/`-Infinity`/`NaN` by the numerator's sign, a `NaN` operand or
quotient reaches `numberWithCommas` as `NaN`, which its falsy guard turns into
`'N/A'` (after the already-appended `'$'`). -/
def pricePerAcreField (data : PropertyData) : String :=
  if truthy (getField data "For_Sale_Price") && truthy (getField data "Land_Area_AC") then
    match jsToNumber (getField data "For_Sale_Price"), jsToNumber (getField data "Land_Area_AC") with
    | some p, some a =>
        if a = 0 then
          (if p = 0 then "$" ++ "N/A" else if 0 < p then "$Infinity" else "$-Infinity")
        else "$" ++ numberWithCommas (some (.num (jsRound (p / a) : ℚ)))
    | _, _ => "$" ++ "N/A"
  else "N/A"

/-- The value produced by `formatPropertyDataForAI` (source lines 199-262):
the original record plus the computed display fields.  The conditionally
assigned fields are `Option`s, `none` meaning the assignment was skipped. -/
structure FormattedData where
  base : PropertyData
  formattedPrice : String
  pricePerAcre : String
  homeAffordabilityFmt : Option String
  rentAffordabilityFmt : Option String
  convenienceIndexFmt : Option String
  populationAccessFmt : Option String
  marketSaturationFmt : Option String
  compositeScoreFmt : Option String
  popGrowthTrend5m : Option String
  popGrowthTrendMessage5m : Option String
  popGrowthTrend10m : Option String
  popGrowthTrendMessage10m : Option String
deriving DecidableEq

/-- `if (data.X) formatted.X_Formatted = formatPercentile(data.X)`. -/
def percentileFieldFmt (data : PropertyData) (key : String) : Option String :=
  if truthy (getField data key) then some (formatPercentile (getField data key)) else none

/-- `formatPropertyDataForAI(data)` (source lines 199-262). -/
def formatPropertyDataForAI (data : PropertyData) : FormattedData :=
  let t5 := popGrowthTrendPair data "%_Pop_Grwth_2020-2024(5m)" "%_Pop_Grwth_2024-2029(5m)" "5 miles"
  let t10 := popGrowthTrendPair data "%_Pop_Grwth_2020-2024(10m)" "%_Pop_Grwth_2024-2029(10m)" "10 miles"
  { base := data
    formattedPrice :=
      if truthy (getField data "For_Sale_Price")
      then "$" ++ numberWithCommas (getField data "For_Sale_Price") else "N/A"
    pricePerAcre := pricePerAcreField data
    homeAffordabilityFmt := percentileFieldFmt data "Home_Affordability_Percentile"
    rentAffordabilityFmt := percentileFieldFmt data "Rent_Affordability_Percentile"
    convenienceIndexFmt := percentileFieldFmt data "Convenience_Index_Percentile"
    populationAccessFmt := percentileFieldFmt data "Population_Access_Percentile"
    marketSaturationFmt := percentileFieldFmt data "Market_Saturation_Percentile"
    compositeScoreFmt := percentileFieldFmt data "Composite_Score_Percentile"
    popGrowthTrend5m := t5.1
    popGrowthTrendMessage5m := t5.2
    popGrowthTrend10m := t10.1
    popGrowthTrendMessage10m := t10.2 }

/-- `${data.X || 'N/A'}`: the interpolated value when truthy, else `'N/A'`. -/
def orNA (o : Option JSVal) : String := if truthy o then jsToString o else "N/A"

/-- `${s || 'N/A'}` for an always-assigned string field. -/
def strOrNA (s : String) : String := if s = "" then "N/A" else s

/-- `${data.X_Formatted || 'N/A'}` for a conditionally assigned string field. -/
def optStrOrNA : Option String → String
  | none => "N/A"
  | some s => strOrNA s

/-- `${data.X ? numberWithCommas(data.X) : 'N/A'}`. -/
def commasOrNA (o : Option JSVal) : String :=
  if truthy o then numberWithCommas o else "N/A"

/-- `${data.X ? '$' + numberWithCommas(data.X) : 'N/A'}`. -/
def dollarsOrNA (o : Option JSVal) : String :=
  if truthy o then "$" ++ numberWithCommas o else "N/A"

/-- `${data.X ? formatNumber(data.X, 2) + '%' : 'N/A'}` (population growth). -/
def growthPctOrNA (o : Option JSVal) : String :=
  if truthy o then formatNumber o 2 ++ "%" else "N/A"

/-- One conditional trend-message line with its template newline
(source lines 297-298): the interpolation sits on a line of its own, so even
the falsy branch leaves the line's newline behind. -/
def trendMessageLine (o : Option String) : String :=
  (match o with
   | some s => if s = "" then "" else "- " ++ s
   | none => "") ++ "\n"

/-- One amenity line's conditional (source lines 324-326): the travel-time
field is concatenated raw, so an absent field renders as `undefined`. -/
def amenityOrNA (data : PropertyData) (distKey timeKey : String) : String :=
  if truthy (getField data distKey) then
    formatNumber (getField data distKey) 1 ++ " miles (" ++
      jsToString (getField data timeKey) ++ " min travel time)"
  else "N/A"

/-- Source lines 274-284. -/
def promptDetails (fd : FormattedData) : String :=
  "\nPlease analyze this property for potential land development:\n\nPROPERTY DETAILS:\n" ++
  "- Stock Number: " ++ orNA (getField fd.base "StockNumber") ++ "\n" ++
  "- Address: " ++ orNA (getField fd.base "Property_Address") ++ ", " ++
    orNA (getField fd.base "City") ++ ", " ++ orNA (getField fd.base "State") ++ " " ++
    orNA (getField fd.base "Zip") ++ "\n" ++
  "- County: " ++ orNA (getField fd.base "County_Name") ++ "\n" ++
  "- Price: " ++ strOrNA fd.formattedPrice ++ "\n" ++
  "- Land Area: " ++ (if truthy (getField fd.base "Land_Area_AC")
      then formatNumber (getField fd.base "Land_Area_AC") 2 ++ " acres" else "N/A") ++ "\n" ++
  "- Price Per Acre: " ++ strOrNA fd.pricePerAcre ++ "\n" ++
  "- Zoning: " ++ orNA (getField fd.base "Zoning") ++ "\n" ++
  "- Proposed Use: " ++ orNA (getField fd.base "Proposed_Land_Use") ++ "\n" ++
  "- Last Sale Date: " ++ orNA (getField fd.base "Last_Sale_Date") ++ "\n" ++
  "- Last Sale Price: " ++ orNA (getField fd.base "Last_Sale_Price") ++ "\n"

/-- Source lines 286-290. -/
def promptFlood (fd : FormattedData) : String :=
  "\nFLOOD INFORMATION:\n" ++
  "- In Special Flood Hazard Area: " ++ orNA (getField fd.base "In_SFHA") ++ "\n" ++
  "- FEMA Flood Zone: " ++ orNA (getField fd.base "Fema_Flood_Zone") ++ "\n" ++
  "- FEMA Map Date: " ++ orNA (getField fd.base "FEMA_Map_Date") ++ "\n" ++
  "- Floodplain Area: " ++ orNA (getField fd.base "Floodplain_Area") ++ "\n"

/-- Source lines 292-298. -/
def promptPopGrowth (fd : FormattedData) : String :=
  "\nPOPULATION GROWTH:\n" ++
  "- 5-mile radius (2020-2024): " ++ growthPctOrNA (getField fd.base "%_Pop_Grwth_2020-2024(5m)") ++ "\n" ++
  "- 5-mile radius (2024-2029): " ++ growthPctOrNA (getField fd.base "%_Pop_Grwth_2024-2029(5m)") ++ "\n" ++
  "- 10-mile radius (2020-2024): " ++ growthPctOrNA (getField fd.base "%_Pop_Grwth_2020-2024(10m)") ++ "\n" ++
  "- 10-mile radius (2024-2029): " ++ growthPctOrNA (getField fd.base "%_Pop_Grwth_2024-2029(10m)") ++ "\n" ++
  trendMessageLine fd.popGrowthTrendMessage5m ++
  trendMessageLine fd.popGrowthTrendMessage10m

/-- Source lines 300-305. -/
def promptPopSummary (fd : FormattedData) : String :=
  "\nPOPULATION SUMMARY:\n" ++
  "- 5-mile radius: " ++ commasOrNA (getField fd.base "TotPop_5") ++ "\n" ++
  "- 10-mile radius: " ++ commasOrNA (getField fd.base "TotPop_10") ++ "\n" ++
  "- 15-mile radius: " ++ commasOrNA (getField fd.base "TotPop_15") ++ "\n" ++
  "- 20-mile radius: " ++ commasOrNA (getField fd.base "TotPop_20") ++ "\n" ++
  "- 25-mile radius: " ++ commasOrNA (getField fd.base "TotPop_25") ++ "\n"

/-- Source lines 307-312. -/
def promptIncome (fd : FormattedData) : String :=
  "\nHOUSEHOLD INCOME (5-mile radius):\n" ++
  "- Median Household Income: " ++ dollarsOrNA (getField fd.base "MedianHHInc_5") ++ "\n" ++
  "- Average Household Income: " ++ dollarsOrNA (getField fd.base "AvgHHInc_5") ++ "\n" ++
  "- Low Income Households (< $35k): " ++ calculateIncomeBracket fd.base "5" 0 (.fin 35) ++ "%\n" ++
  "- Middle Income Households ($35k-$100k): " ++ calculateIncomeBracket fd.base "5" 35 (.fin 100) ++ "%\n" ++
  "- High Income Households (> $100k): " ++ calculateIncomeBracket fd.base "5" 100 .inf ++ "%\n"

/-- Source lines 314-321. -/
def promptHousing (fd : FormattedData) : String :=
  "\nHOUSING MARKET (5-mile radius):\n" ++
  "- Total Housing Units: " ++ commasOrNA (getField fd.base "TotHUs_5") ++ "\n" ++
  "- Owner Occupied: " ++ (if truthy (getField fd.base "OwnerOcc_5")
      then numberWithCommas (getField fd.base "OwnerOcc_5") ++ " (" ++
        calculatePercentage (getField fd.base "OwnerOcc_5") (getField fd.base "OccHUs_5") ++ "%)"
      else "N/A") ++ "\n" ++
  "- Renter Occupied: " ++ (if truthy (getField fd.base "RenterOcc_5")
      then numberWithCommas (getField fd.base "RenterOcc_5") ++ " (" ++
        calculatePercentage (getField fd.base "RenterOcc_5") (getField fd.base "OccHUs_5") ++ "%)"
      else "N/A") ++ "\n" ++
  "- Vacant Units: " ++ (if truthy (getField fd.base "VacHUs_5")
      then numberWithCommas (getField fd.base "VacHUs_5") ++ " (" ++
        calculatePercentage (getField fd.base "VacHUs_5") (getField fd.base "TotHUs_5") ++ "%)"
      else "N/A") ++ "\n" ++
  "- Median Home Value: " ++ dollarsOrNA (getField fd.base "MedianHValue_5") ++ "\n" ++
  "- Median Gross Rent: " ++ dollarsOrNA (getField fd.base "MedianGrossRent_5") ++ "\n" ++
  "- Average Gross Rent: " ++ dollarsOrNA (getField fd.base "AvgGrossRent_5") ++ "\n"

/-- Source lines 323-326. -/
def promptAmenities (fd : FormattedData) : String :=
  "\nNEARBY AMENITIES:\n" ++
  "- Nearest Walmart: " ++
    amenityOrNA fd.base "Nearest_Walmart_Distance_Miles" "Nearest_Walmart_Travel_Time_Minutes" ++ "\n" ++
  "- Nearest Hospital: " ++
    amenityOrNA fd.base "Nearest_Hospital_Distance_Miles" "Nearest_Hospital_Travel_Time_Minutes" ++ "\n" ++
  "- Nearest Park: " ++
    amenityOrNA fd.base "Nearest_Park_Distance_Miles" "Nearest_Park_Travel_Time_Minutes" ++ "\n"

/-- Source lines 328-334. -/
def promptIndices (fd : FormattedData) : String :=
  "\nAFFORDABILITY & MARKET INDICES:\n" ++
  "- Home Affordability: " ++ optStrOrNA fd.homeAffordabilityFmt ++ " percentile\n" ++
  "- Rent Affordability: " ++ optStrOrNA fd.rentAffordabilityFmt ++ " percentile\n" ++
  "- Convenience Index: " ++ optStrOrNA fd.convenienceIndexFmt ++ " percentile\n" ++
  "- Population Access: " ++ optStrOrNA fd.populationAccessFmt ++ " percentile\n" ++
  "- Market Saturation: " ++ optStrOrNA fd.marketSaturationFmt ++ " percentile\n" ++
  "- Composite Score: " ++ optStrOrNA fd.compositeScoreFmt ++ " percentile\n"

/-- Source lines 336-349. -/
def promptNotes (userNarrative : Option JSVal) : String :=
  "\nANALYST NOTES:\n" ++
  (if truthy userNarrative then jsToString userNarrative
   else "No additional notes provided by the analyst.") ++ "\n" ++
  "\nBased on this data, please provide:\n" ++
  "1. A comprehensive analysis of this property\x27s development potential\n" ++
  "2. Key strengths and challenges of this location\n" ++
  "3. Market opportunities based on demographics and population trends\n" ++
  "4. Recommendations for optimal development approaches\n" ++
  "5. Risk assessment and mitigation strategies\n" ++
  "6. Investment outlook (short-term and long-term)\n" ++
  "\nFormat the report in sections with clear headings and bullet points where appropriate.\n" ++
  "Include HTML tags to structure the report for web display with Bootstrap 5 classes.\n"

/-- `createAIPrompt(data, userNarrative)` (source lines 270-350). -/
def createAIPrompt (fd : FormattedData) (userNarrative : Option JSVal) : String :=
  promptDetails fd ++ promptFlood fd ++ promptPopGrowth fd ++ promptPopSummary fd ++
  promptIncome fd ++ promptHousing fd ++ promptAmenities fd ++ promptIndices fd ++
  promptNotes userNarrative

/-- The request surface the handler inspects: the HTTP method and the
`propertyData` field of the JSON body (`none` when the body lacks it, which
also covers a falsy value there). -/
structure ApiRequest where
  method : String
  propertyData : Option PropertyData
deriving DecidableEq

/-- The JSON (or empty) body the handler responds with. -/
inductive ResBody where
  | noBody
  | reportJson (report : String)
  | errorJson (error : String) (message : Option String)
deriving DecidableEq

/-- The response: status code and body.  CORS headers are set unconditionally
before any branching and carry no claim-relevant data, so they are not
modelled. -/
structure ApiResponse where
  status : ℕ
  body : ResBody
deriving DecidableEq

/-- The argument object of `openai.chat.completions.create` (source lines
163-177). -/
structure ChatRequest where
  model : String
  systemContent : String
  userContent : String
  temperature : ℚ
  maxTokens : ℕ
deriving DecidableEq

/-- The fixed system-role instruction (source line 168). -/
def systemInstruction : String :=
  "You are an expert land investment analyst. You\x27re assisting a professional land analyst by providing detailed insights based on comprehensive demographic, economic, and geographic data. Create a professional investment analysis report about a property based on its data metrics. Format your response in HTML for display on a website. Include sections for:\n\n1. Executive Summary\n2. Location Analysis\n3. Market Dynamics\n4. Population & Demographics\n5. Income & Housing Affordability\n6. Development Potential\n7. Risk Assessment\n8. Investment Recommendations\n\nUse detailed analysis and professional language. Make sure the HTML is valid and includes appropriate Bootstrap 5 styling classes for a professional appearance."

/-- The completion request the handler sends for a given property record
(source lines 152-177): model `gpt-4`, the assembled prompt, temperature 0.5,
2500 max tokens. -/
def chatRequestFor (pd : PropertyData) : ChatRequest :=
  let formattedData := formatPropertyDataForAI pd
  let userNarrative :=
    if truthy (getField pd "userNarrative") then getField pd "userNarrative"
    else some (.str "")
  { model := "gpt-4"
    systemContent := systemInstruction
    userContent := createAIPrompt formattedData userNarrative
    temperature := 1 / 2
    maxTokens := 2500 }

/-- `handler(req, res)` (source lines 93-192), as a total function from the
environment credential, the downstream completion service (which either yields
the generated text or throws with a message: the single `await`ed call), and
the request, to the response paired with the number of downstream invocations
made.  Totality of this function is the model of "no unhandled rejection":
every path, including a throwing downstream call, ends in exactly one
response. -/
def handler (apiKey : Option String)
    (complete : ChatRequest → Except String String)
    (req : ApiRequest) : ApiResponse × ℕ :=
  if req.method = "OPTIONS" then (⟨200, .noBody⟩, 0)
  else if req.method ≠ "POST" then (⟨405, .errorJson "Method not allowed" none⟩, 0)
  else
    match req.propertyData with
    | none => (⟨400, .errorJson "Property data is required" none⟩, 0)
    | some pd =>
      if apiKey = none ∨ apiKey = some "" then
        (⟨500, .errorJson "Server configuration error" (some "OpenAI API key is not configured")⟩, 0)
      else
        match complete (chatRequestFor pd) with
        | .ok content => (⟨200, .reportJson content⟩, 1)
        | .error msg => (⟨500, .errorJson "Failed to generate report" (some msg)⟩, 1)

/-! Concrete records used by the counterexamples and witnesses. -/

/-- A record with every bracket count present as a non-negative integer and a
positive total, but whose counts dwarf the total-household count. -/
def recBigBracket : PropertyData :=
  [("TotHHs_5", .num 1), ("HHInc0_5", .num 1000), ("HHInc10_5", .num 0),
   ("HHInc15_5", .num 0), ("HHInc25_5", .num 0), ("HHInc35_5", .num 0),
   ("HHInc50_5", .num 0), ("HHInc75_5", .num 0), ("HHInc100_5", .num 0),
   ("HHInc150_5", .num 0), ("HHInc200_5", .num 0)]

/-- A complete, internally consistent income record: every bin holds 10
households and the total is their sum, 100. -/
def recEvenIncome : PropertyData :=
  [("TotHHs_5", .num 100), ("HHInc0_5", .num 10), ("HHInc10_5", .num 10),
   ("HHInc15_5", .num 10), ("HHInc25_5", .num 10), ("HHInc35_5", .num 10),
   ("HHInc50_5", .num 10), ("HHInc75_5", .num 10), ("HHInc100_5", .num 10),
   ("HHInc150_5", .num 10), ("HHInc200_5", .num 10)]

/-- A record with a Walmart distance but no travel-time field. -/
def recWalmartNoTime : PropertyData := [("Nearest_Walmart_Distance_Miles", .num 3)]

/-- A record whose current growth value is the parseable number 0. -/
def recZeroGrowth : PropertyData :=
  [("%_Pop_Grwth_2020-2024(5m)", .num 0), ("%_Pop_Grwth_2024-2029(5m)", .num 1)]

/-- A record with a present but zero sale price and nonzero acreage. -/
def recZeroPrice : PropertyData := [("For_Sale_Price", .num 0), ("Land_Area_AC", .num 20)]

/-- The sample record named by the C4 claim. -/
def recSample : PropertyData := [("For_Sale_Price", .num 500000), ("Land_Area_AC", .num 20)]

/-- A record with rising five-mile population growth, 1% to 2%. -/
def recGrowthUp : PropertyData :=
  [("%_Pop_Grwth_2020-2024(5m)", .num 1), ("%_Pop_Grwth_2024-2029(5m)", .num 2)]

/-- A record in which every zero-sensitive field is the number 0. -/
def recAllZero : PropertyData :=
  [("For_Sale_Price", .num 0), ("Land_Area_AC", .num 0),
   ("%_Pop_Grwth_2020-2024(5m)", .num 0), ("%_Pop_Grwth_2024-2029(5m)", .num 0),
   ("%_Pop_Grwth_2020-2024(10m)", .num 0), ("%_Pop_Grwth_2024-2029(10m)", .num 0)]

/-- Modelled from the claim's words for C4 (a refinement reference, not from
the source): when both `For_Sale_Price` and `Land_Area_AC` are present and the
acreage is nonzero, the price divided by the acres, rounded and comma-formatted
with a leading dollar sign; otherwise `'N/A'`. -/
def pricePerAcreClaimed (d : PropertyData) : String :=
  match getField d "For_Sale_Price", getField d "Land_Area_AC" with
  | some p, some a =>
    match jsToNumber (some p), jsToNumber (some a) with
    | some pq, some aq =>
        if aq = 0 then "N/A"
        else "$" ++ ⟨insertCommas (intRepr (jsRound (pq / aq))).data⟩
    | _, _ => "N/A"
  | _, _ => "N/A"

/-! Helper lemmas about the rendering functions. -/

theorem str_data_append (a b : String) : (a ++ b).data = a.data ++ b.data :=
  String.data_append a b

theorem digitChar_isDigit (n : ℕ) : (digitChar n).isDigit = true := by
  unfold digitChar
  split <;> decide

theorem natDigitsAux_isDigit :
    ∀ fuel n : ℕ, ∀ c ∈ natDigitsAux fuel n, c.isDigit = true := by
  intro fuel
  induction fuel with
  | zero => intro n c hc; simp [natDigitsAux] at hc
  | succ f ih =>
    intro n c hc
    simp only [natDigitsAux] at hc
    by_cases h : n < 10
    · rw [if_pos h] at hc
      simp only [List.mem_singleton] at hc
      subst hc
      exact digitChar_isDigit n
    · rw [if_neg h] at hc
      rcases List.mem_append.mp hc with h1 | h1
      · exact ih _ c h1
      · simp only [List.mem_singleton] at h1
        subst h1
        exact digitChar_isDigit n

theorem natRepr_isDigit (n : ℕ) : ∀ c ∈ (natRepr n).data, c.isDigit = true := by
  intro c hc
  exact natDigitsAux_isDigit _ n c hc

theorem padZeros_isDigit (f r : ℕ) : ∀ c ∈ (padZeros f r).data, c.isDigit = true := by
  intro c hc
  unfold padZeros at hc
  rcases List.mem_append.mp hc with h1 | h1
  · rw [List.eq_of_mem_replicate h1]
    decide
  · exact natDigitsAux_isDigit _ r c h1

/-- Every character of a `toFixed` rendering is a digit, a minus sign, or a
decimal point; in particular the letter `N` cannot occur. -/
theorem jsToFixed_no_N (f : ℕ) (q : ℚ) : 'N' ∉ (jsToFixed f q).data := by
  intro hc
  simp only [jsToFixed, str_data_append] at hc
  rcases List.mem_append.mp hc with h1 | h1
  · by_cases hq : q < 0
    · rw [if_pos hq] at h1
      simp at h1
    · rw [if_neg hq] at h1
      simp at h1
  · by_cases hf : f = 0
    · rw [if_pos hf] at h1
      have := natRepr_isDigit _ 'N' h1
      simp at this
    · rw [if_neg hf] at h1
      simp only [str_data_append] at h1
      rcases List.mem_append.mp h1 with h2 | h2
      · rcases List.mem_append.mp h2 with h3 | h3
        · have := natRepr_isDigit _ 'N' h3
          simp at this
        · simp at h3
      · have := padZeros_isDigit _ _ 'N' h2
        simp at this

/-- `toFixed` output is never the sentinel string. -/
theorem jsToFixed_ne_NA (f : ℕ) (q : ℚ) : jsToFixed f q ≠ "N/A" := by
  intro h
  have hN : 'N' ∈ (jsToFixed f q).data := by
    rw [h]
    decide
  exact jsToFixed_no_N f q hN

theorem trendWord_of_gt {c f : ℚ} (h : c < f) : trendWord c f = "increasing" := by
  simp [trendWord, h]

theorem trendWord_of_lt {c f : ℚ} (h : f < c) : trendWord c f = "decreasing" := by
  unfold trendWord
  rw [if_neg (by exact not_lt.mpr (le_of_lt h)), if_pos h]

theorem trendWord_of_eq {c f : ℚ} (h : f = c) : trendWord c f = "stable" := by
  subst h
  unfold trendWord
  rw [if_neg (lt_irrefl f), if_neg (lt_irrefl f)]

theorem popGrowthTrendPair_set (d : PropertyData) (ck fk lbl : String) (c f : ℚ)
    (h1 : truthy (getField d ck) = true) (h2 : truthy (getField d fk) = true)
    (h3 : jsParseFloat (getField d ck) = some c)
    (h4 : jsParseFloat (getField d fk) = some f) :
    popGrowthTrendPair d ck fk lbl =
      (some (trendWord c f),
       some ("Population growth within " ++ lbl ++ " is " ++ trendWord c f ++ " (" ++
             jsToFixed 2 c ++ "% to " ++ jsToFixed 2 f ++ "%)")) := by
  unfold popGrowthTrendPair
  rw [h1, h2, h3, h4]
  simp [trendWord]

theorem popGrowthTrendPair_skip (d : PropertyData) (ck fk lbl : String)
    (h : truthy (getField d ck) = false ∨ truthy (getField d fk) = false ∨
         jsParseFloat (getField d ck) = none ∨ jsParseFloat (getField d fk) = none) :
    popGrowthTrendPair d ck fk lbl = (none, none) := by
  unfold popGrowthTrendPair
  rcases h with h | h | h | h
  · rw [h]; simp
  · rw [h]; simp
  · rw [h]
    split
    · cases jsParseFloat (getField d fk) <;> simp
    · rfl
  · rw [h]
    split
    · cases jsParseFloat (getField d ck) <;> simp
    · rfl

/-! Theorems settling the claims. -/

/-- Claim C9: for every request with method OPTIONS, the handler responds with
status 200 and an empty body, and the downstream text-generation call is never
invoked for that request. -/
theorem handler_options_200 (apiKey : Option String)
    (complete : ChatRequest → Except String String) (req : ApiRequest)
    (h : req.method = "OPTIONS") :
    handler apiKey complete req = (⟨200, .noBody⟩, 0) := by
  unfold handler
  rw [h]
  simp

/-- Witness for C9 at a concrete request. -/
theorem handler_options_200_witness :
    handler (some "key") (fun _ => Except.ok "report") ⟨"OPTIONS", none⟩ =
      (⟨200, .noBody⟩, 0) :=
  handler_options_200 (some "key") (fun _ => Except.ok "report") ⟨"OPTIONS", none⟩ rfl

/-- Claim C7: for every POST request whose body lacks a propertyData field,
the handler responds with status 400 and an error descriptor, and the
downstream text-generation call is never invoked for that request. -/
theorem handler_missing_propertyData_400 (apiKey : Option String)
    (complete : ChatRequest → Except String String) (req : ApiRequest)
    (hm : req.method = "POST") (hp : req.propertyData = none) :
    handler apiKey complete req =
      (⟨400, .errorJson "Property data is required" none⟩, 0) := by
  unfold handler
  rw [hm, hp]
  simp

/-- Witness for C7 at a concrete request. -/
theorem handler_missing_propertyData_400_witness :
    handler (some "key") (fun _ => Except.ok "report") ⟨"POST", none⟩ =
      (⟨400, .errorJson "Property data is required" none⟩, 0) :=
  handler_missing_propertyData_400 (some "key") (fun _ => Except.ok "report")
    ⟨"POST", none⟩ rfl rfl

/-- Claim C8: for every POST request where the downstream text-generation call
fails, the handler responds with status 500 carrying the error's message in the
response body and performs exactly one downstream call (no retry); the handler
is a total function, which is this model's statement that no unhandled
rejection escapes. -/
theorem handler_downstream_failure_500 (apiKey : Option String) (key : String)
    (complete : ChatRequest → Except String String) (req : ApiRequest)
    (pd : PropertyData) (e : String)
    (hm : req.method = "POST") (hp : req.propertyData = some pd)
    (hk : apiKey = some key) (hkne : key ≠ "")
    (hc : complete (chatRequestFor pd) = .error e) :
    handler apiKey complete req =
      (⟨500, .errorJson "Failed to generate report" (some e)⟩, 1) := by
  unfold handler
  rw [hm, hp, hk]
  rw [if_neg (by decide : ¬ ("POST" : String) = "OPTIONS")]
  rw [if_neg (by simp : ¬ ("POST" : String) ≠ "POST")]
  simp only []
  rw [if_neg (by simp [hkne] : ¬ (some key = none ∨ some key = some ""))]
  rw [hc]

/-- Witness for C8 at a concrete request and failing downstream service. -/
theorem handler_downstream_failure_500_witness :
    handler (some "key") (fun _ => Except.error "network error") ⟨"POST", some recSample⟩ =
      (⟨500, .errorJson "Failed to generate report" (some "network error")⟩, 1) :=
  handler_downstream_failure_500 (some "key") "key"
    (fun _ => Except.error "network error") ⟨"POST", some recSample⟩ recSample
    "network error" rfl rfl rfl (by decide) rfl

/-- Claim C10: a numeric field whose value is exactly 0 is treated the same as
an absent field: a zero For_Sale_Price or Land_Area_AC yields price-per-acre
"N/A", a zero percentile value formats to "N/A", and a zero current- or
future-window growth value causes the growth-trend fields to be omitted, even
though 0 parses as a number. -/
theorem zero_treated_as_absent :
    (∀ d : PropertyData, getField d "For_Sale_Price" = some (.num 0) →
      pricePerAcreField d = "N/A") ∧
    (∀ d : PropertyData, getField d "Land_Area_AC" = some (.num 0) →
      pricePerAcreField d = "N/A") ∧
    formatPercentile (some (.num 0)) = "N/A" ∧
    jsParseFloat (some (.num 0)) = some 0 ∧
    (∀ d : PropertyData, getField d "%_Pop_Grwth_2020-2024(5m)" = some (.num 0) →
      (formatPropertyDataForAI d).popGrowthTrend5m = none ∧
      (formatPropertyDataForAI d).popGrowthTrendMessage5m = none) ∧
    (∀ d : PropertyData, getField d "%_Pop_Grwth_2024-2029(5m)" = some (.num 0) →
      (formatPropertyDataForAI d).popGrowthTrend5m = none ∧
      (formatPropertyDataForAI d).popGrowthTrendMessage5m = none) := by
  refine ⟨?_, ?_, by decide, by decide, ?_, ?_⟩
  · intro d h
    unfold pricePerAcreField
    rw [h]
    simp [truthy]
  · intro d h
    unfold pricePerAcreField
    rw [h]
    simp [truthy]
  · intro d h
    have hs := popGrowthTrendPair_skip d "%_Pop_Grwth_2020-2024(5m)" "%_Pop_Grwth_2024-2029(5m)"
      "5 miles" (Or.inl (by rw [h]; decide))
    simp [formatPropertyDataForAI, hs]
  · intro d h
    have hs := popGrowthTrendPair_skip d "%_Pop_Grwth_2020-2024(5m)" "%_Pop_Grwth_2024-2029(5m)"
      "5 miles" (Or.inr (Or.inl (by rw [h]; decide)))
    simp [formatPropertyDataForAI, hs]

/-- Witness for C10 at a record whose zero-sensitive fields are all 0. -/
theorem zero_treated_as_absent_witness :
    pricePerAcreField recAllZero = "N/A" ∧
    (formatPropertyDataForAI recAllZero).popGrowthTrend5m = none ∧
    (formatPropertyDataForAI recAllZero).popGrowthTrendMessage5m = none :=
  ⟨zero_treated_as_absent.1 recAllZero (by decide),
   (zero_treated_as_absent.2.2.2.2.1 recAllZero (by decide)).1,
   (zero_treated_as_absent.2.2.2.2.1 recAllZero (by decide)).2⟩

/-- Counterexample to C5 as stated: the value 0 strips and parses to the
number 0, whose rounded rendering is "0", yet `formatPercentile` returns
"N/A" because of its falsy-value short-circuit. -/
theorem formatPercentile_claim_counterexample :
    formatPercentile (some (.num 0)) = "N/A" ∧
    formatPercentileClaimed (some (.num 0)) = "0" ∧
    formatPercentile (some (.num 0)) ≠ formatPercentileClaimed (some (.num 0)) := by
  decide

/-- Amended C5: for every truthy input, `formatPercentile` strips non-numeric
characters, parses the remainder as a float and rounds to an integer string
(with "N/A" when unparseable); for every falsy input (absent, zero, or empty
string) it returns "N/A" outright; and the two examples named by the claim
hold. -/
theorem formatPercentile_amended :
    (∀ v : Option JSVal, truthy v = true →
      formatPercentile v = formatPercentileClaimed v) ∧
    (∀ v : Option JSVal, truthy v = false → formatPercentile v = "N/A") ∧
    formatPercentile (some (.str "87.4%")) = "87" ∧
    formatPercentile (some (.str "abc")) = "N/A" := by
  refine ⟨?_, ?_, by decide, by decide⟩
  · intro v h
    unfold formatPercentile formatPercentileClaimed
    rw [h]
    simp
  · intro v h
    unfold formatPercentile
    rw [h]
    simp

/-- Witness for the amended C5 at concrete inputs. -/
theorem formatPercentile_amended_witness :
    formatPercentile (some (.str "87.4%")) = formatPercentileClaimed (some (.str "87.4%")) ∧
    formatPercentile (some (.num 0)) = "N/A" :=
  ⟨formatPercentile_amended.1 (some (.str "87.4%")) (by decide),
   formatPercentile_amended.2.1 (some (.num 0)) (by decide)⟩

/-- Counterexample to C3 as stated: both growth values parse as numbers (0 and
1), yet the trend fields are omitted, because the guard tests truthiness, not
parseability, and 0 is falsy. -/
theorem popGrowthTrend_claim_counterexample :
    (formatPropertyDataForAI recZeroGrowth).popGrowthTrend5m = none ∧
    (formatPropertyDataForAI recZeroGrowth).popGrowthTrendMessage5m = none ∧
    jsParseFloat (getField recZeroGrowth "%_Pop_Grwth_2020-2024(5m)") = some 0 ∧
    jsParseFloat (getField recZeroGrowth "%_Pop_Grwth_2024-2029(5m)") = some 1 := by
  decide

/-- Amended C3: at each radius, when both window values are truthy and parse
as numbers the formatter sets the trend field to exactly one of "increasing"
(future &gt; current), "decreasing" (future &lt; current), or "stable" (equal),
together with a message field; it omits both fields exactly when either value
is falsy (absent, zero, or empty string) or fails to parse. -/
theorem popGrowthTrend_amended :
    (∀ (d : PropertyData) (c f : ℚ),
      truthy (getField d "%_Pop_Grwth_2020-2024(5m)") = true →
      truthy (getField d "%_Pop_Grwth_2024-2029(5m)") = true →
      jsParseFloat (getField d "%_Pop_Grwth_2020-2024(5m)") = some c →
      jsParseFloat (getField d "%_Pop_Grwth_2024-2029(5m)") = some f →
      (formatPropertyDataForAI d).popGrowthTrend5m = some (trendWord c f) ∧
      (c < f → trendWord c f = "increasing") ∧
      (f < c → trendWord c f = "decreasing") ∧
      (f = c → trendWord c f = "stable")) ∧
    (∀ d : PropertyData,
      (truthy (getField d "%_Pop_Grwth_2020-2024(5m)") = false ∨
       truthy (getField d "%_Pop_Grwth_2024-2029(5m)") = false ∨
       jsParseFloat (getField d "%_Pop_Grwth_2020-2024(5m)") = none ∨
       jsParseFloat (getField d "%_Pop_Grwth_2024-2029(5m)") = none) →
      (formatPropertyDataForAI d).popGrowthTrend5m = none ∧
      (formatPropertyDataForAI d).popGrowthTrendMessage5m = none) ∧
    (∀ (d : PropertyData) (c f : ℚ),
      truthy (getField d "%_Pop_Grwth_2020-2024(10m)") = true →
      truthy (getField d "%_Pop_Grwth_2024-2029(10m)") = true →
      jsParseFloat (getField d "%_Pop_Grwth_2020-2024(10m)") = some c →
      jsParseFloat (getField d "%_Pop_Grwth_2024-2029(10m)") = some f →
      (formatPropertyDataForAI d).popGrowthTrend10m = some (trendWord c f) ∧
      (c < f → trendWord c f = "increasing") ∧
      (f < c → trendWord c f = "decreasing") ∧
      (f = c → trendWord c f = "stable")) ∧
    (∀ d : PropertyData,
      (truthy (getField d "%_Pop_Grwth_2020-2024(10m)") = false ∨
       truthy (getField d "%_Pop_Grwth_2024-2029(10m)") = false ∨
       jsParseFloat (getField d "%_Pop_Grwth_2020-2024(10m)") = none ∨
       jsParseFloat (getField d "%_Pop_Grwth_2024-2029(10m)") = none) →
      (formatPropertyDataForAI d).popGrowthTrend10m = none ∧
      (formatPropertyDataForAI d).popGrowthTrendMessage10m = none) := by
  refine ⟨?_, ?_, ?_, ?_⟩
  · intro d c f h1 h2 h3 h4
    have hs := popGrowthTrendPair_set d _ _ "5 miles" c f h1 h2 h3 h4
    exact ⟨by simp [formatPropertyDataForAI, hs],
           fun h => trendWord_of_gt h, fun h => trendWord_of_lt h, fun h => trendWord_of_eq h⟩
  · intro d h
    have hs := popGrowthTrendPair_skip d "%_Pop_Grwth_2020-2024(5m)" "%_Pop_Grwth_2024-2029(5m)"
      "5 miles" h
    exact ⟨by simp [formatPropertyDataForAI, hs], by simp [formatPropertyDataForAI, hs]⟩
  · intro d c f h1 h2 h3 h4
    have hs := popGrowthTrendPair_set d _ _ "10 miles" c f h1 h2 h3 h4
    exact ⟨by simp [formatPropertyDataForAI, hs],
           fun h => trendWord_of_gt h, fun h => trendWord_of_lt h, fun h => trendWord_of_eq h⟩
  · intro d h
    have hs := popGrowthTrendPair_skip d "%_Pop_Grwth_2020-2024(10m)" "%_Pop_Grwth_2024-2029(10m)"
      "10 miles" h
    exact ⟨by simp [formatPropertyDataForAI, hs], by simp [formatPropertyDataForAI, hs]⟩

/-- Witness for the amended C3 at a record with growth 1% rising to 2%. -/
theorem popGrowthTrend_amended_witness :
    (formatPropertyDataForAI recGrowthUp).popGrowthTrend5m = some (trendWord 1 2) ∧
    ((1 : ℚ) < 2 → trendWord 1 2 = "increasing") ∧
    ((2 : ℚ) < 1 → trendWord 1 2 = "decreasing") ∧
    ((2 : ℚ) = 1 → trendWord 1 2 = "stable") :=
  popGrowthTrend_amended.1 recGrowthUp 1 2 (by decide) (by decide) (by decide) (by decide)

/-- Counterexample to C4 as stated: with a present but zero sale price and 20
acres, the claim reads price-per-acre as 0/20 formatted ("$0"), but the code's
truthiness guard treats the zero price as absent and yields "N/A". -/
theorem pricePerAcre_claim_counterexample :
    pricePerAcreField recZeroPrice = "N/A" ∧
    pricePerAcreClaimed recZeroPrice = "$0" ∧
    pricePerAcreField recZeroPrice ≠ pricePerAcreClaimed recZeroPrice := by
  decide

/-- Amended C4: when both For_Sale_Price and Land_Area_AC are truthy (present
and nonzero) and coerce to numbers with nonzero acreage, the formatted
price-per-acre is the rounded, comma-formatted quotient with a leading dollar
sign; when either field is falsy it is "N/A"; and for the record
{For_Sale_Price: 500000, Land_Area_AC: 20} it equals "$25,000". -/
theorem pricePerAcre_amended :
    (∀ (d : PropertyData) (p a : JSVal) (pq aq : ℚ),
      getField d "For_Sale_Price" = some p → truthy (some p) = true →
      getField d "Land_Area_AC" = some a → truthy (some a) = true →
      jsToNumber (some p) = some pq → jsToNumber (some a) = some aq → aq ≠ 0 →
      pricePerAcreField d = "$" ++ numberWithCommas (some (.num (jsRound (pq / aq) : ℚ)))) ∧
    (∀ d : PropertyData,
      truthy (getField d "For_Sale_Price") = false ∨
      truthy (getField d "Land_Area_AC") = false →
      pricePerAcreField d = "N/A") ∧
    pricePerAcreField recSample = "$25,000" := by
  refine ⟨?_, ?_, by decide⟩
  · intro d p a pq aq hp htp ha hta hpq haq hne
    unfold pricePerAcreField
    rw [hp, ha, htp, hta, hpq, haq]
    show (if (true && true) = true then
        if aq = 0 then
          (if pq = 0 then "$" ++ "N/A" else if 0 < pq then "$Infinity" else "$-Infinity")
        else "$" ++ numberWithCommas (some (.num (jsRound (pq / aq) : ℚ)))
      else "N/A") = _
    rw [if_pos (show (true && true) = true from rfl), if_neg hne]
  · intro d h
    unfold pricePerAcreField
    rcases h with h | h <;> rw [h] <;> simp

/-- Witness for the amended C4 at the claim's sample record and at the
zero-price record. -/
theorem pricePerAcre_amended_witness :
    pricePerAcreField recSample =
      "$" ++ numberWithCommas (some (.num (jsRound ((500000 : ℚ) / 20) : ℚ))) ∧
    pricePerAcreField recZeroPrice = "N/A" :=
  ⟨pricePerAcre_amended.1 recSample (.num 500000) (.num 20) 500000 20
      (by decide) (by decide) (by decide) (by decide) (by decide) (by decide) (by decide),
   pricePerAcre_amended.2.1 recZeroPrice (Or.inl (by decide))⟩

/-- Claim C6: `calculatePercentage` returns "N/A" exactly when either input
fails to parse as a number or the denominator parses to zero; otherwise it is
`(numerator/denominator)*100` rounded to one decimal place. -/
theorem calculatePercentage_correct :
    (∀ a b : Option JSVal,
      calculatePercentage a b = "N/A" ↔
        jsParseFloat a = none ∨ jsParseFloat b = none ∨ jsParseFloat b = some 0) ∧
    (∀ (a b : Option JSVal) (n d : ℚ),
      jsParseFloat a = some n → jsParseFloat b = some d → d ≠ 0 →
      calculatePercentage a b = jsToFixed 1 (n / d * 100)) := by
  constructor
  · intro a b
    unfold calculatePercentage
    cases ha : jsParseFloat a with
    | none => simp
    | some n =>
      cases hb : jsParseFloat b with
      | none => simp
      | some d =>
        show (if d = 0 then "N/A" else formatNumber (some (.num (n / d * 100))) 1) = "N/A" ↔ _
        by_cases hd : d = 0
        · subst hd
          simp
        · rw [if_neg hd]
          have hne : formatNumber (some (.num (n / d * 100))) 1 ≠ "N/A" :=
            jsToFixed_ne_NA 1 (n / d * 100)
          simp [hne, hd]
  · intro a b n d ha hb hd
    unfold calculatePercentage
    rw [ha, hb]
    show (if d = 0 then "N/A" else formatNumber (some (.num (n / d * 100))) 1) = _
    rw [if_neg hd]
    rfl

/-- Witness for C6: 30 of 80 is 37.5 percent. -/
theorem calculatePercentage_correct_witness :
    calculatePercentage (some (.num 30)) (some (.num 80)) =
      jsToFixed 1 ((30 : ℚ) / 80 * 100) :=
  calculatePercentage_correct.2 (some (.num 30)) (some (.num 80)) 30 80 rfl rfl
    (by norm_num)

theorem str_append_assoc (a b c : String) : a ++ b ++ c = a ++ (b ++ c) := by
  cases a
  cases b
  cases c
  show String.mk _ = String.mk _
  rw [List.append_assoc]

set_option maxRecDepth 4000 in
/-- Claim C2 (code bug): for the record with a Walmart distance of 3 miles and
no travel-time field, the assembled prompt contains the literal text
`undefined`, because the amenity line concatenates the raw field value. -/
theorem createAIPrompt_undefined_leak :
    ∃ u v : String,
      createAIPrompt (formatPropertyDataForAI recWalmartNoTime) (some (.str "")) =
        u ++ ("undefined" ++ v) := by
  have hamen : promptAmenities (formatPropertyDataForAI recWalmartNoTime) =
      "\nNEARBY AMENITIES:\n- Nearest Walmart: 3.0 miles (" ++
        ("undefined" ++
          " min travel time)\n- Nearest Hospital: N/A\n- Nearest Park: N/A\n") := by
    decide
  refine ⟨(promptDetails (formatPropertyDataForAI recWalmartNoTime) ++
      promptFlood (formatPropertyDataForAI recWalmartNoTime) ++
      promptPopGrowth (formatPropertyDataForAI recWalmartNoTime) ++
      promptPopSummary (formatPropertyDataForAI recWalmartNoTime) ++
      promptIncome (formatPropertyDataForAI recWalmartNoTime) ++
      promptHousing (formatPropertyDataForAI recWalmartNoTime)) ++
      "\nNEARBY AMENITIES:\n- Nearest Walmart: 3.0 miles (",
    " min travel time)\n- Nearest Hospital: N/A\n- Nearest Park: N/A\n" ++
      (promptIndices (formatPropertyDataForAI recWalmartNoTime) ++
       promptNotes (some (.str ""))), ?_⟩
  unfold createAIPrompt
  rw [hamen]
  simp only [str_append_assoc]

theorem bracketStep_none (data : PropertyData) (lo : ℚ) (hi : XQ) (b : String × ℚ × XQ) :
    bracketStep data lo hi none b = none := rfl

theorem foldl_bracketStep_none (data : PropertyData) (lo : ℚ) (hi : XQ) :
    ∀ l : List (String × ℚ × XQ), List.foldl (bracketStep data lo hi) none l = none := by
  intro l
  induction l with
  | nil => rfl
  | cons b l ih =>
    rw [List.foldl_cons, bracketStep_none]
    exact ih

/-- Every contribution of one bin to `inBracket` lies between `0` and the
bin's own (non-negative) count: a full bin adds the count, an overlapping bin
adds the count scaled by a ratio in `[0, 1]`, anything else adds `0`. -/
theorem bracketContrib_bounds (lo : ℚ) (hi : XQ) (bmin : ℚ) (bmax : XQ) (v : ℤ)
    (hv : 0 ≤ v) {c : ℚ} (h : bracketContrib lo hi bmin bmax v = some c) :
    0 ≤ c ∧ c ≤ (v : ℚ) := by
  have hv' : (0 : ℚ) ≤ (v : ℚ) := by exact_mod_cast hv
  unfold bracketContrib at h
  by_cases hg1 : ((decide (bmin ≥ lo) || decide (bmin = 0)) && XQ.leB bmax hi) = true
  · rw [if_pos hg1] at h
    injection h with h2
    subst h2
    exact ⟨hv', le_refl _⟩
  · rw [if_neg hg1] at h
    by_cases hg2 : (decide (bmin < lo) && XQ.ltB (.fin lo) bmax) = true
    · rw [if_pos hg2] at h
      cases bmax with
      | inf => exact absurd h (by simp)
      | fin b =>
        simp only [Bool.and_eq_true, decide_eq_true_eq, XQ.ltB] at hg2
        obtain ⟨h1, h2⟩ := hg2
        injection h with h3
        subst h3
        constructor
        · apply mul_nonneg hv'
          apply div_nonneg <;> linarith
        · calc (v : ℚ) * ((b - lo) / (b - bmin)) ≤ (v : ℚ) * 1 :=
                mul_le_mul_of_nonneg_left
                  (by rw [div_le_one (by linarith)]; linarith) hv'
            _ = (v : ℚ) := mul_one _
    · rw [if_neg hg2] at h
      by_cases hg3 : (XQ.ltB (.fin bmin) hi && XQ.ltB hi bmax) = true
      · rw [if_pos hg3] at h
        cases hi with
        | inf =>
          cases bmax with
          | inf => injection h with h3; subst h3; exact ⟨le_refl 0, hv'⟩
          | fin b => injection h with h3; subst h3; exact ⟨le_refl 0, hv'⟩
        | fin m =>
          cases bmax with
          | inf => injection h with h3; subst h3; exact ⟨le_refl 0, hv'⟩
          | fin b =>
            simp only [Bool.and_eq_true, decide_eq_true_eq, XQ.ltB] at hg3
            obtain ⟨h1, h2⟩ := hg3
            injection h with h3
            subst h3
            constructor
            · apply mul_nonneg hv'
              apply div_nonneg <;> linarith
            · calc (v : ℚ) * ((m - bmin) / (b - bmin)) ≤ (v : ℚ) * 1 :=
                    mul_le_mul_of_nonneg_left
                      (by rw [div_le_one (by linarith)]; linarith) hv'
                _ = (v : ℚ) := mul_one _
      · rw [if_neg hg3] at h
        injection h with h3
        subst h3
        exact ⟨le_refl 0, hv'⟩

/-- The `forEach` accumulation never shrinks and never exceeds the sum of the
bin counts it has seen, as long as those counts are non-negative. -/
theorem foldl_bracketStep_bound (data : PropertyData) (lo : ℚ) (hi : XQ) :
    ∀ (l : List (String × ℚ × XQ)) (a s : ℚ),
      (∀ b ∈ l, 0 ≤ bracketCount data b.1) →
      List.foldl (bracketStep data lo hi) (some a) l = some s →
      a ≤ s ∧ s ≤ a + ((l.map fun b => ((bracketCount data b.1 : ℤ) : ℚ)).sum) := by
  intro l
  induction l with
  | nil =>
    intro a s _ h
    simp only [List.foldl_nil, Option.some.injEq] at h
    subst h
    simp
  | cons b l ih =>
    intro a s hnn h
    rw [List.foldl_cons] at h
    cases hc : bracketContrib lo hi b.2.1 b.2.2 (bracketCount data b.1) with
    | none =>
      rw [show bracketStep data lo hi (some a) b = none from by
        unfold bracketStep; rw [hc]] at h
      rw [foldl_bracketStep_none] at h
      cases h
    | some c =>
      rw [show bracketStep data lo hi (some a) b = some (a + c) from by
        unfold bracketStep; rw [hc]] at h
      have hcb := bracketContrib_bounds lo hi b.2.1 b.2.2 _
        (hnn b (List.mem_cons_self _ _)) hc
      have hrest := ih (a + c) s (fun x hx => hnn x (List.mem_cons_of_mem _ hx)) h
      constructor
      · linarith [hcb.1, hrest.1]
      · simp only [List.map_cons, List.sum_cons]
        linarith [hcb.2, hrest.2]

theorem foldl_step_cons (data : PropertyData) (lo : ℚ) (hi : XQ)
    (b : String × ℚ × XQ) (l : List (String × ℚ × XQ)) (a c : ℚ)
    (hc : bracketContrib lo hi b.2.1 b.2.2 (bracketCount data b.1) = some c) :
    List.foldl (bracketStep data lo hi) (some a) (b :: l) =
      List.foldl (bracketStep data lo hi) (some (a + c)) l := by
  rw [List.foldl_cons]
  congr 1
  unfold bracketStep
  rw [hc]

theorem bracketContrib_full (lo : ℚ) (hi : XQ) (bmin : ℚ) (bmax : XQ) (v : ℤ)
    (hg : ((decide (bmin ≥ lo) || decide (bmin = 0)) && XQ.leB bmax hi) = true) :
    bracketContrib lo hi bmin bmax v = some (v : ℚ) := by
  unfold bracketContrib
  rw [if_pos hg]

theorem bracketContrib_zero (lo : ℚ) (hi : XQ) (bmin : ℚ) (bmax : XQ) (v : ℤ)
    (h1 : ¬ (((decide (bmin ≥ lo) || decide (bmin = 0)) && XQ.leB bmax hi) = true))
    (h2 : ¬ ((decide (bmin < lo) && XQ.ltB (.fin lo) bmax) = true))
    (h3 : ¬ ((XQ.ltB (.fin bmin) hi && XQ.ltB hi bmax) = true)) :
    bracketContrib lo hi bmin bmax v = some 0 := by
  unfold bracketContrib
  rw [if_neg h1, if_neg h2, if_neg h3]

/-- Amended C1: for a record whose ten household-bracket counts are
non-negative integers summing to at most the positive total-household count,
every `calculateIncomeBracket` query yields either "N/A" or a percentage in
[0, 100]; and the three-bracket sweep used in the prompt — [0,35), [35,100),
[100,∞) — yields three percentages in [0, 100] whose exact (pre-rounding) sum
is `100 * (S + 2 * H0) / T`, where `S` is the sum of all ten counts and `H0`
the under-$10k count: the sweep reaches ≈100% exactly when the under-$10k
count is 0 and the total is the bracket sum, because the condition
`bracketMin >= min || bracketMin === 0` counts the first bin in every range. -/
theorem calculateIncomeBracket_amended
    (d : PropertyData) (T k0 k10 k15 k25 k35 k50 k75 k100 k150 k200 : ℤ)
    (htot : bracketCount d "TotHHs_5" = T) (hT : 0 < T)
    (h0 : bracketCount d "HHInc0_5" = k0) (h0n : 0 ≤ k0)
    (h10 : bracketCount d "HHInc10_5" = k10) (h10n : 0 ≤ k10)
    (h15 : bracketCount d "HHInc15_5" = k15) (h15n : 0 ≤ k15)
    (h25 : bracketCount d "HHInc25_5" = k25) (h25n : 0 ≤ k25)
    (h35 : bracketCount d "HHInc35_5" = k35) (h35n : 0 ≤ k35)
    (h50 : bracketCount d "HHInc50_5" = k50) (h50n : 0 ≤ k50)
    (h75 : bracketCount d "HHInc75_5" = k75) (h75n : 0 ≤ k75)
    (h100 : bracketCount d "HHInc100_5" = k100) (h100n : 0 ≤ k100)
    (h150 : bracketCount d "HHInc150_5" = k150) (h150n : 0 ≤ k150)
    (h200 : bracketCount d "HHInc200_5" = k200) (h200n : 0 ≤ k200)
    (hsum : k0 + k10 + k15 + k25 + k35 + k50 + k75 + k100 + k150 + k200 ≤ T) :
    (∀ (lo : ℚ) (hi : XQ),
      calculateIncomeBracket d "5" lo hi = "N/A" ∨
      ∃ p : ℚ, 0 ≤ p ∧ p ≤ 100 ∧ calculateIncomeBracket d "5" lo hi = jsToFixed 1 p) ∧
    ∃ p1 p2 p3 : ℚ,
      calculateIncomeBracket d "5" 0 (.fin 35) = jsToFixed 1 p1 ∧
      calculateIncomeBracket d "5" 35 (.fin 100) = jsToFixed 1 p2 ∧
      calculateIncomeBracket d "5" 100 .inf = jsToFixed 1 p3 ∧
      0 ≤ p1 ∧ p1 ≤ 100 ∧ 0 ≤ p2 ∧ p2 ≤ 100 ∧ 0 ≤ p3 ∧ p3 ≤ 100 ∧
      p1 + p2 + p3 =
        100 * (((k0 + k10 + k15 + k25 + k35 + k50 + k75 + k100 + k150 + k200 : ℤ) : ℚ) +
          2 * (k0 : ℚ)) / (T : ℚ) := by
  have hTq : (0 : ℚ) < (T : ℚ) := by exact_mod_cast hT
  have hlist : bracketList "5" =
      [("HHInc0_5", (0 : ℚ), XQ.fin 10), ("HHInc10_5", 10, XQ.fin 15),
       ("HHInc15_5", 15, XQ.fin 25), ("HHInc25_5", 25, XQ.fin 35),
       ("HHInc35_5", 35, XQ.fin 50), ("HHInc50_5", 50, XQ.fin 75),
       ("HHInc75_5", 75, XQ.fin 100), ("HHInc100_5", 100, XQ.fin 150),
       ("HHInc150_5", 150, XQ.fin 200), ("HHInc200_5", 200, XQ.inf)] := rfl
  have hNA : ∀ (lo : ℚ) (hi : XQ), inBracketSum d "5" lo hi = none →
      calculateIncomeBracket d "5" lo hi = "N/A" := by
    intro lo hi hx
    unfold calculateIncomeBracket
    rw [show ("TotHHs_" ++ "5" : String) = "TotHHs_5" from rfl, htot,
      if_neg hT.ne', hx]
  have hVal : ∀ (lo : ℚ) (hi : XQ) (ib : ℚ), inBracketSum d "5" lo hi = some ib →
      calculateIncomeBracket d "5" lo hi = jsToFixed 1 (ib / (T : ℚ) * 100) := by
    intro lo hi ib hx
    unfold calculateIncomeBracket
    rw [show ("TotHHs_" ++ "5" : String) = "TotHHs_5" from rfl, htot,
      if_neg hT.ne', hx]
    rfl
  have hnn : ∀ b ∈ bracketList "5", 0 ≤ bracketCount d b.1 := by
    rw [hlist]
    intro b hb
    simp only [List.mem_cons, List.not_mem_nil, or_false] at hb
    rcases hb with rfl | rfl | rfl | rfl | rfl | rfl | rfl | rfl | rfl | rfl <;>
      simp only [h0, h10, h15, h25, h35, h50, h75, h100, h150, h200] <;> omega
  have hmapsum :
      ((bracketList "5").map fun b => ((bracketCount d b.1 : ℤ) : ℚ)).sum =
        ((k0 + k10 + k15 + k25 + k35 + k50 + k75 + k100 + k150 + k200 : ℤ) : ℚ) := by
    rw [hlist]
    simp only [List.map_cons, List.map_nil, List.sum_cons, List.sum_nil,
      h0, h10, h15, h25, h35, h50, h75, h100, h150, h200]
    push_cast
    ring
  have hpb : ∀ s : ℤ, 0 ≤ s → s ≤ T →
      0 ≤ ((s : ℤ) : ℚ) / (T : ℚ) * 100 ∧ ((s : ℤ) : ℚ) / (T : ℚ) * 100 ≤ 100 := by
    intro s hs hsT
    have hsq : (0 : ℚ) ≤ ((s : ℤ) : ℚ) := by exact_mod_cast hs
    have hsTq : ((s : ℤ) : ℚ) ≤ (T : ℚ) := by exact_mod_cast hsT
    constructor
    · exact mul_nonneg (div_nonneg hsq hTq.le) (by norm_num)
    · have h1 : ((s : ℤ) : ℚ) / (T : ℚ) ≤ 1 := (div_le_one hTq).mpr hsTq
      have h2 := mul_le_mul_of_nonneg_right h1 (show (0 : ℚ) ≤ 100 by norm_num)
      linarith
  constructor
  · intro lo hi
    cases hx : inBracketSum d "5" lo hi with
    | none => exact Or.inl (hNA lo hi hx)
    | some ib =>
      right
      have hfold : List.foldl (bracketStep d lo hi) (some 0) (bracketList "5") = some ib := hx
      have hb := foldl_bracketStep_bound d lo hi (bracketList "5") 0 ib hnn hfold
      rw [hmapsum] at hb
      have hibT : ib ≤ (T : ℚ) := by
        have : ((k0 + k10 + k15 + k25 + k35 + k50 + k75 + k100 + k150 + k200 : ℤ) : ℚ) ≤
            (T : ℚ) := by exact_mod_cast hsum
        linarith [hb.2]
      refine ⟨ib / (T : ℚ) * 100, ?_, ?_, hVal lo hi ib hx⟩
      · exact mul_nonneg (div_nonneg hb.1 hTq.le) (by norm_num)
      · have h1 : ib / (T : ℚ) ≤ 1 := (div_le_one hTq).mpr hibT
        have h2 := mul_le_mul_of_nonneg_right h1 (show (0 : ℚ) ≤ 100 by norm_num)
        linarith
  · have hc1 : bracketContrib 0 (XQ.fin 35) 0 (XQ.fin 10) (bracketCount d "HHInc0_5") =
        some ((k0 : ℤ) : ℚ) := by
      rw [h0]; exact bracketContrib_full _ _ _ _ _ (by decide)
    have hc2 : bracketContrib 0 (XQ.fin 35) 10 (XQ.fin 15) (bracketCount d "HHInc10_5") =
        some ((k10 : ℤ) : ℚ) := by
      rw [h10]; exact bracketContrib_full _ _ _ _ _ (by decide)
    have hc3 : bracketContrib 0 (XQ.fin 35) 15 (XQ.fin 25) (bracketCount d "HHInc15_5") =
        some ((k15 : ℤ) : ℚ) := by
      rw [h15]; exact bracketContrib_full _ _ _ _ _ (by decide)
    have hc4 : bracketContrib 0 (XQ.fin 35) 25 (XQ.fin 35) (bracketCount d "HHInc25_5") =
        some ((k25 : ℤ) : ℚ) := by
      rw [h25]; exact bracketContrib_full _ _ _ _ _ (by decide)
    have hc5 : bracketContrib 0 (XQ.fin 35) 35 (XQ.fin 50) (bracketCount d "HHInc35_5") =
        some 0 := bracketContrib_zero _ _ _ _ _ (by decide) (by decide) (by decide)
    have hc6 : bracketContrib 0 (XQ.fin 35) 50 (XQ.fin 75) (bracketCount d "HHInc50_5") =
        some 0 := bracketContrib_zero _ _ _ _ _ (by decide) (by decide) (by decide)
    have hc7 : bracketContrib 0 (XQ.fin 35) 75 (XQ.fin 100) (bracketCount d "HHInc75_5") =
        some 0 := bracketContrib_zero _ _ _ _ _ (by decide) (by decide) (by decide)
    have hc8 : bracketContrib 0 (XQ.fin 35) 100 (XQ.fin 150) (bracketCount d "HHInc100_5") =
        some 0 := bracketContrib_zero _ _ _ _ _ (by decide) (by decide) (by decide)
    have hc9 : bracketContrib 0 (XQ.fin 35) 150 (XQ.fin 200) (bracketCount d "HHInc150_5") =
        some 0 := bracketContrib_zero _ _ _ _ _ (by decide) (by decide) (by decide)
    have hc10 : bracketContrib 0 (XQ.fin 35) 200 XQ.inf (bracketCount d "HHInc200_5") =
        some 0 := bracketContrib_zero _ _ _ _ _ (by decide) (by decide) (by decide)
    have e1 : inBracketSum d "5" 0 (XQ.fin 35) =
        some (((k0 + k10 + k15 + k25 : ℤ) : ℚ)) := by
      unfold inBracketSum
      rw [hlist]
      rw [foldl_step_cons d 0 (XQ.fin 35) ("HHInc0_5", (0 : ℚ), XQ.fin 10) _ _ _ hc1,
        foldl_step_cons d 0 (XQ.fin 35) ("HHInc10_5", (10 : ℚ), XQ.fin 15) _ _ _ hc2,
        foldl_step_cons d 0 (XQ.fin 35) ("HHInc15_5", (15 : ℚ), XQ.fin 25) _ _ _ hc3,
        foldl_step_cons d 0 (XQ.fin 35) ("HHInc25_5", (25 : ℚ), XQ.fin 35) _ _ _ hc4,
        foldl_step_cons d 0 (XQ.fin 35) ("HHInc35_5", (35 : ℚ), XQ.fin 50) _ _ _ hc5,
        foldl_step_cons d 0 (XQ.fin 35) ("HHInc50_5", (50 : ℚ), XQ.fin 75) _ _ _ hc6,
        foldl_step_cons d 0 (XQ.fin 35) ("HHInc75_5", (75 : ℚ), XQ.fin 100) _ _ _ hc7,
        foldl_step_cons d 0 (XQ.fin 35) ("HHInc100_5", (100 : ℚ), XQ.fin 150) _ _ _ hc8,
        foldl_step_cons d 0 (XQ.fin 35) ("HHInc150_5", (150 : ℚ), XQ.fin 200) _ _ _ hc9,
        foldl_step_cons d 0 (XQ.fin 35) ("HHInc200_5", (200 : ℚ), XQ.inf) _ _ _ hc10,
        List.foldl_nil]
      congr 1
      push_cast
      ring
    have hd1 : bracketContrib 35 (XQ.fin 100) 0 (XQ.fin 10) (bracketCount d "HHInc0_5") =
        some ((k0 : ℤ) : ℚ) := by
      rw [h0]; exact bracketContrib_full _ _ _ _ _ (by decide)
    have hd2 : bracketContrib 35 (XQ.fin 100) 10 (XQ.fin 15) (bracketCount d "HHInc10_5") =
        some 0 := bracketContrib_zero _ _ _ _ _ (by decide) (by decide) (by decide)
    have hd3 : bracketContrib 35 (XQ.fin 100) 15 (XQ.fin 25) (bracketCount d "HHInc15_5") =
        some 0 := bracketContrib_zero _ _ _ _ _ (by decide) (by decide) (by decide)
    have hd4 : bracketContrib 35 (XQ.fin 100) 25 (XQ.fin 35) (bracketCount d "HHInc25_5") =
        some 0 := bracketContrib_zero _ _ _ _ _ (by decide) (by decide) (by decide)
    have hd5 : bracketContrib 35 (XQ.fin 100) 35 (XQ.fin 50) (bracketCount d "HHInc35_5") =
        some ((k35 : ℤ) : ℚ) := by
      rw [h35]; exact bracketContrib_full _ _ _ _ _ (by decide)
    have hd6 : bracketContrib 35 (XQ.fin 100) 50 (XQ.fin 75) (bracketCount d "HHInc50_5") =
        some ((k50 : ℤ) : ℚ) := by
      rw [h50]; exact bracketContrib_full _ _ _ _ _ (by decide)
    have hd7 : bracketContrib 35 (XQ.fin 100) 75 (XQ.fin 100) (bracketCount d "HHInc75_5") =
        some ((k75 : ℤ) : ℚ) := by
      rw [h75]; exact bracketContrib_full _ _ _ _ _ (by decide)
    have hd8 : bracketContrib 35 (XQ.fin 100) 100 (XQ.fin 150) (bracketCount d "HHInc100_5") =
        some 0 := bracketContrib_zero _ _ _ _ _ (by decide) (by decide) (by decide)
    have hd9 : bracketContrib 35 (XQ.fin 100) 150 (XQ.fin 200) (bracketCount d "HHInc150_5") =
        some 0 := bracketContrib_zero _ _ _ _ _ (by decide) (by decide) (by decide)
    have hd10 : bracketContrib 35 (XQ.fin 100) 200 XQ.inf (bracketCount d "HHInc200_5") =
        some 0 := bracketContrib_zero _ _ _ _ _ (by decide) (by decide) (by decide)
    have e2 : inBracketSum d "5" 35 (XQ.fin 100) =
        some (((k0 + k35 + k50 + k75 : ℤ) : ℚ)) := by
      unfold inBracketSum
      rw [hlist]
      rw [foldl_step_cons d 35 (XQ.fin 100) ("HHInc0_5", (0 : ℚ), XQ.fin 10) _ _ _ hd1,
        foldl_step_cons d 35 (XQ.fin 100) ("HHInc10_5", (10 : ℚ), XQ.fin 15) _ _ _ hd2,
        foldl_step_cons d 35 (XQ.fin 100) ("HHInc15_5", (15 : ℚ), XQ.fin 25) _ _ _ hd3,
        foldl_step_cons d 35 (XQ.fin 100) ("HHInc25_5", (25 : ℚ), XQ.fin 35) _ _ _ hd4,
        foldl_step_cons d 35 (XQ.fin 100) ("HHInc35_5", (35 : ℚ), XQ.fin 50) _ _ _ hd5,
        foldl_step_cons d 35 (XQ.fin 100) ("HHInc50_5", (50 : ℚ), XQ.fin 75) _ _ _ hd6,
        foldl_step_cons d 35 (XQ.fin 100) ("HHInc75_5", (75 : ℚ), XQ.fin 100) _ _ _ hd7,
        foldl_step_cons d 35 (XQ.fin 100) ("HHInc100_5", (100 : ℚ), XQ.fin 150) _ _ _ hd8,
        foldl_step_cons d 35 (XQ.fin 100) ("HHInc150_5", (150 : ℚ), XQ.fin 200) _ _ _ hd9,
        foldl_step_cons d 35 (XQ.fin 100) ("HHInc200_5", (200 : ℚ), XQ.inf) _ _ _ hd10,
        List.foldl_nil]
      congr 1
      push_cast
      ring
    have hf1 : bracketContrib 100 XQ.inf 0 (XQ.fin 10) (bracketCount d "HHInc0_5") =
        some ((k0 : ℤ) : ℚ) := by
      rw [h0]; exact bracketContrib_full _ _ _ _ _ (by decide)
    have hf2 : bracketContrib 100 XQ.inf 10 (XQ.fin 15) (bracketCount d "HHInc10_5") =
        some 0 := bracketContrib_zero _ _ _ _ _ (by decide) (by decide) (by decide)
    have hf3 : bracketContrib 100 XQ.inf 15 (XQ.fin 25) (bracketCount d "HHInc15_5") =
        some 0 := bracketContrib_zero _ _ _ _ _ (by decide) (by decide) (by decide)
    have hf4 : bracketContrib 100 XQ.inf 25 (XQ.fin 35) (bracketCount d "HHInc25_5") =
        some 0 := bracketContrib_zero _ _ _ _ _ (by decide) (by decide) (by decide)
    have hf5 : bracketContrib 100 XQ.inf 35 (XQ.fin 50) (bracketCount d "HHInc35_5") =
        some 0 := bracketContrib_zero _ _ _ _ _ (by decide) (by decide) (by decide)
    have hf6 : bracketContrib 100 XQ.inf 50 (XQ.fin 75) (bracketCount d "HHInc50_5") =
        some 0 := bracketContrib_zero _ _ _ _ _ (by decide) (by decide) (by decide)
    have hf7 : bracketContrib 100 XQ.inf 75 (XQ.fin 100) (bracketCount d "HHInc75_5") =
        some 0 := bracketContrib_zero _ _ _ _ _ (by decide) (by decide) (by decide)
    have hf8 : bracketContrib 100 XQ.inf 100 (XQ.fin 150) (bracketCount d "HHInc100_5") =
        some ((k100 : ℤ) : ℚ) := by
      rw [h100]; exact bracketContrib_full _ _ _ _ _ (by decide)
    have hf9 : bracketContrib 100 XQ.inf 150 (XQ.fin 200) (bracketCount d "HHInc150_5") =
        some ((k150 : ℤ) : ℚ) := by
      rw [h150]; exact bracketContrib_full _ _ _ _ _ (by decide)
    have hf10 : bracketContrib 100 XQ.inf 200 XQ.inf (bracketCount d "HHInc200_5") =
        some ((k200 : ℤ) : ℚ) := by
      rw [h200]; exact bracketContrib_full _ _ _ _ _ (by decide)
    have e3 : inBracketSum d "5" 100 XQ.inf =
        some (((k0 + k100 + k150 + k200 : ℤ) : ℚ)) := by
      unfold inBracketSum
      rw [hlist]
      rw [foldl_step_cons d 100 XQ.inf ("HHInc0_5", (0 : ℚ), XQ.fin 10) _ _ _ hf1,
        foldl_step_cons d 100 XQ.inf ("HHInc10_5", (10 : ℚ), XQ.fin 15) _ _ _ hf2,
        foldl_step_cons d 100 XQ.inf ("HHInc15_5", (15 : ℚ), XQ.fin 25) _ _ _ hf3,
        foldl_step_cons d 100 XQ.inf ("HHInc25_5", (25 : ℚ), XQ.fin 35) _ _ _ hf4,
        foldl_step_cons d 100 XQ.inf ("HHInc35_5", (35 : ℚ), XQ.fin 50) _ _ _ hf5,
        foldl_step_cons d 100 XQ.inf ("HHInc50_5", (50 : ℚ), XQ.fin 75) _ _ _ hf6,
        foldl_step_cons d 100 XQ.inf ("HHInc75_5", (75 : ℚ), XQ.fin 100) _ _ _ hf7,
        foldl_step_cons d 100 XQ.inf ("HHInc100_5", (100 : ℚ), XQ.fin 150) _ _ _ hf8,
        foldl_step_cons d 100 XQ.inf ("HHInc150_5", (150 : ℚ), XQ.fin 200) _ _ _ hf9,
        foldl_step_cons d 100 XQ.inf ("HHInc200_5", (200 : ℚ), XQ.inf) _ _ _ hf10,
        List.foldl_nil]
      congr 1
      push_cast
      ring
    refine ⟨((k0 + k10 + k15 + k25 : ℤ) : ℚ) / (T : ℚ) * 100,
      ((k0 + k35 + k50 + k75 : ℤ) : ℚ) / (T : ℚ) * 100,
      ((k0 + k100 + k150 + k200 : ℤ) : ℚ) / (T : ℚ) * 100,
      hVal _ _ _ e1, hVal _ _ _ e2, hVal _ _ _ e3,
      (hpb _ (by omega) (by omega)).1, (hpb _ (by omega) (by omega)).2,
      (hpb _ (by omega) (by omega)).1, (hpb _ (by omega) (by omega)).2,
      (hpb _ (by omega) (by omega)).1, (hpb _ (by omega) (by omega)).2, ?_⟩
    field_simp
    ring

/-- Counterexample to C1 as stated.  First part: a record with non-negative
integer bracket counts and a positive parseable total can yield 100000.0
percent, far outside [0, 100], because nothing ties the counts to the total.
Second part: for a complete, consistent record (each bin 10, total 100) the
three-bracket sweep renders 40.0% three times; 40 + 40 + 40 = 120, not ≈100,
because the first bin is counted in every range. -/
theorem calculateIncomeBracket_claim_counterexample :
    (calculateIncomeBracket recBigBracket "5" 0 (.fin 35) = "100000.0" ∧
      ¬ ((100000 : ℚ) ≤ 100)) ∧
    (calculateIncomeBracket recEvenIncome "5" 0 (.fin 35) = "40.0" ∧
      calculateIncomeBracket recEvenIncome "5" 35 (.fin 100) = "40.0" ∧
      calculateIncomeBracket recEvenIncome "5" 100 .inf = "40.0" ∧
      parseFloatString "40.0" = some 40 ∧
      (40 : ℚ) + 40 + 40 = 120 ∧ (120 : ℚ) ≠ 100) := by
  decide

/-- Witness for the amended C1 at the consistent all-tens record: the sweep
percentages are each in [0, 100] and sum exactly to 100·(100 + 2·10)/100 = 120. -/
theorem calculateIncomeBracket_amended_witness :
    ∃ p1 p2 p3 : ℚ,
      calculateIncomeBracket recEvenIncome "5" 0 (.fin 35) = jsToFixed 1 p1 ∧
      calculateIncomeBracket recEvenIncome "5" 35 (.fin 100) = jsToFixed 1 p2 ∧
      calculateIncomeBracket recEvenIncome "5" 100 .inf = jsToFixed 1 p3 ∧
      0 ≤ p1 ∧ p1 ≤ 100 ∧ 0 ≤ p2 ∧ p2 ≤ 100 ∧ 0 ≤ p3 ∧ p3 ≤ 100 ∧
      p1 + p2 + p3 =
        100 * (((10 + 10 + 10 + 10 + 10 + 10 + 10 + 10 + 10 + 10 : ℤ) : ℚ) +
          2 * ((10 : ℤ) : ℚ)) / ((100 : ℤ) : ℚ) := by
  have h := calculateIncomeBracket_amended recEvenIncome 100 10 10 10 10 10 10 10 10 10 10
    (by decide) (by decide)
    (by decide) (by decide) (by decide) (by decide) (by decide) (by decide)
    (by decide) (by decide) (by decide) (by decide) (by decide) (by decide)
    (by decide) (by decide) (by decide) (by decide) (by decide) (by decide)
    (by decide) (by decide) (by decide)
  exact h.2
